import Mathlib

/-!
Verification development for the resume-optimizer agent repository
(src/resume_optimizer).  The Python data model and handlers are embedded
shallowly: JSON payloads become the first-order inductive `Val`, the
in-memory task store becomes an association list, stateful handlers
become explicit state-passing functions, exceptions become `Except`, and
external effects (the LLM crew, web scraping, the MCP session, `json.loads`)
become oracle parameters.  Timestamps (`datetime.utcnow()`) are modelled as
natural numbers supplied by the caller.
-/

namespace AgentPlxty

/-! ### JSON-like values

`Dict[str, Any]` / `List[Any]` payloads as they flow through
src/resume_optimizer/a2a/jsonrpc_handler.py.  Arrays and objects are
cons-chains inside the single inductive so that every recursion over a
value is structural. -/

inductive Val where
  | vnull
  | vbool (b : Bool)
  | vnum (n : Int)
  | vstr (s : String)
  | varrNil
  | varrCons (head : Val) (tail : Val)
  | vobjNil
  | vobjCons (key : String) (val : Val) (tail : Val)
deriving DecidableEq, Repr

/-- Build an array value from a list of elements. -/
def Val.arrOf : List Val → Val
  | [] => .varrNil
  | v :: vs => .varrCons v (Val.arrOf vs)

/-- Build an object value from a list of key/value fields. -/
def Val.objOf : List (String × Val) → Val
  | [] => .vobjNil
  | (k, v) :: fs => .vobjCons k v (Val.objOf fs)

/-- `d.get(key)` on an object value: first binding of `key`, if any. -/
def Val.getField : Val → String → Option Val
  | .vobjCons k v rest, key => if k = key then some v else Val.getField rest key
  | _, _ => none

/-- Python truthiness of a JSON-like value (`if not x:` branches). -/
def Val.pyFalsy : Val → Bool
  | .vnull => true
  | .vbool b => !b
  | .vnum n => n == 0
  | .vstr s => s == ""
  | .varrNil => true
  | .vobjNil => true
  | _ => false

/-- Every string atom and object key occurring anywhere inside a value.
Used to state what a payload does or does not mention. -/
def Val.strings : Val → List String
  | .vstr s => [s]
  | .varrCons h t => h.strings ++ t.strings
  | .vobjCons k v t => k :: (v.strings ++ t.strings)
  | _ => []

/-- Python `repr` of a list of strings, as interpolated by an f-string
(quote-escaping inside the strings is not modelled; no id contains a quote). -/
def pyReprStrList (xs : List String) : String :=
  "[" ++ String.intercalate ", " (xs.map fun s => "'" ++ s ++ "'") ++ "]"

/-- Python `str()` of a scalar value; container rendering is not needed by
any theorem below and is abstracted by `Repr`-style tags. -/
def pyStr : Val → String
  | .vstr s => s
  | .vnull => "None"
  | .vbool b => if b then "True" else "False"
  | .vnum n => toString n
  | .varrNil => "[]"
  | .vobjNil => "\x7b\x7d"
  | .varrCons _ _ => "[...]"
  | .vobjCons _ _ _ => "\x7b...\x7d"

/-! ### Task model

`TaskStatus` and `A2ATask` from src/resume_optimizer/a2a/messages.py. -/

inductive TaskStatus where
  | pending
  | inProgress
  | completed
  | failed
  | cancelled
deriving DecidableEq, Repr

/-- The `str`-enum value of a status (`TaskStatus(str, Enum)`). -/
def TaskStatus.toStr : TaskStatus → String
  | .pending => "pending"
  | .inProgress => "in_progress"
  | .completed => "completed"
  | .failed => "failed"
  | .cancelled => "cancelled"

structure A2ATask where
  id : String
  status : TaskStatus
  skill_id : String
  input : Val
  output : Option Val := none
  error : Option String := none
  created_at : Nat
  updated_at : Nat
  completed_at : Option Nat := none
deriving DecidableEq, Repr

/-- The in-memory task store `self.tasks: Dict[str, A2ATask]`, as an
insertion-ordered association list (Python dicts preserve insertion order). -/
abbrev Store := List (String × A2ATask)

/-- Replace the value bound to `k` (in-place mutation of the stored task). -/
def storeSet (st : Store) (k : String) (v : A2ATask) : Store :=
  List.map (fun kv => if kv.1 = k then (k, v) else kv) st

/-- `params.get("task_id")` followed by `if not task_id:`: an absent or
empty id counts as missing. -/
def pyTruthyStr : Option String → Option String
  | some s => if s = "" then none else some s
  | none => none

/-! ### tasks/cancel

`A2AJSONRPCHandler.handle_task_cancel`
(src/resume_optimizer/a2a/jsonrpc_handler.py, lines 211-227).  The handler
raises `ValueError` (modelled as `.error`) for a missing id, an unknown id,
or a task whose status is `completed` or `failed`; otherwise it mutates the
task to `cancelled` and stamps `updated_at`.  The returned store is the
store after the call (unchanged on every error path). -/

def handle_task_cancel (now : Nat) (store : Store) (task_id : Option String) :
    Store × Except String A2ATask :=
  match pyTruthyStr task_id with
  | none => (store, .error "Missing 'task_id' parameter")
  | some tid =>
    match List.lookup tid store with
    | none => (store, .error ("Task not found: " ++ tid))
    | some task =>
      if task.status = .completed ∨ task.status = .failed then
        (store, .error ("Cannot cancel " ++ task.status.toStr ++ " task"))
      else
        let task' := { task with status := .cancelled, updated_at := now }
        (storeSet store tid task', .ok task')

/-! ### tasks/list

`A2AJSONRPCHandler.handle_task_list` (lines 185-209): filter by status
when the filter is truthy, stable-sort by `created_at` descending, then
paginate with `tasks[offset : offset + limit]`. -/

structure TaskListResult where
  tasks : List A2ATask
  total : Nat
  offset : Nat
  limit : Nat
deriving Repr

/-- `t.status == status_filter` (a `str` enum compares by its value). -/
def statusMatches (s : String) (t : A2ATask) : Bool :=
  t.status.toStr == s

/-- The reversed comparison used by `reverse=True` sorting on `created_at`. -/
def createdDescLe (a b : A2ATask) : Bool :=
  decide (b.created_at ≤ a.created_at)

/-- Python's stable `list.sort(key=lambda t: t.created_at, reverse=True)`:
a stable merge sort under the reversed comparison. -/
def sortByCreatedDesc (ts : List A2ATask) : List A2ATask :=
  ts.mergeSort createdDescLe

def handle_task_list (store : Store) (status_filter : Option String)
    (limit offset : Nat) : TaskListResult :=
  let tasks := store.map (·.2)
  let tasks :=
    match status_filter with
    | some s => if s = "" then tasks else tasks.filter (statusMatches s)
    | none => tasks
  let sorted := sortByCreatedDesc tasks
  { tasks := (sorted.drop offset).take limit
    total := sorted.length
    offset := offset
    limit := limit }

/-! ### The spawned task execution

`A2AJSONRPCHandler._execute_task` (lines 242-267).  The coroutine first
stamps the task `in_progress`; when the skill body returns it stores the
output, marks the task `completed` and stamps `completed_at`; when the body
raises it stores the stringified exception and marks the task `failed`
(no retry, `completed_at` untouched).  `updated_at` is stamped in both
phases.  The skill body's outcome is an oracle (`Except` of the stringified
exception or the result dict). -/

def executeTask_start (now : Nat) (t : A2ATask) : A2ATask :=
  { t with status := .inProgress, updated_at := now }

def executeTask_finish (now : Nat) (outcome : Except String Val) (t : A2ATask) :
    A2ATask :=
  match outcome with
  | .ok r =>
      { t with status := .completed, output := some r,
               completed_at := some now, updated_at := now }
  | .error e =>
      { t with status := .failed, error := some e, updated_at := now }

/-- The whole `_execute_task` run: start phase at time `now₁`, finish phase
at time `now₂`, with the skill body's single (unretried) outcome. -/
def _execute_task (now₁ now₂ : Nat) (outcome : Except String Val)
    (t : A2ATask) : A2ATask :=
  executeTask_finish now₂ outcome (executeTask_start now₁ t)

/-! ### The status transition system under interleaving

One spawned `_execute_task` (program counter 0: not yet started, 1: body
running, 2: finished) interleaved with any number of `tasks/cancel` calls
on the same task.  Each Python statement block that writes `task.status`
is one atomic step.  `_execute_task` writes `in_progress` unconditionally
on start and `completed`/`failed` unconditionally on finish;
`handle_task_cancel` writes `cancelled` whenever the current status is not
`completed`/`failed` (a rejected cancel writes nothing and is not a step). -/

structure ExecState where
  status : TaskStatus
  pc : Nat
deriving DecidableEq, Repr

inductive TaskStep : ExecState → ExecState → Prop where
  | execStart (s : ExecState) (h : s.pc = 0) :
      TaskStep s { status := .inProgress, pc := 1 }
  | execFinishOk (s : ExecState) (h : s.pc = 1) :
      TaskStep s { status := .completed, pc := 2 }
  | execFinishErr (s : ExecState) (h : s.pc = 1) :
      TaskStep s { status := .failed, pc := 2 }
  | cancel (s : ExecState)
      (h : ¬(s.status = .completed ∨ s.status = .failed)) :
      TaskStep s { status := .cancelled, pc := s.pc }

/-- A task fresh from `tasks/create`: status `pending`, execution spawned
but not yet started. -/
def initExecState : ExecState := { status := .pending, pc := 0 }

def ReachableExec (s : ExecState) : Prop :=
  Relation.ReflTransGen TaskStep initExecState s

/-- The status edges the specification claims are the only ones. -/
def claimedEdges : List (TaskStatus × TaskStatus) :=
  [(.pending, .inProgress), (.inProgress, .completed),
   (.inProgress, .failed), (.pending, .cancelled),
   (.inProgress, .cancelled)]

/-- The status edges the code actually realizes: the claimed ones, plus the
edges out of `cancelled` produced by an execution step that overwrites an
earlier cancellation, and the `cancelled` self-loop of a repeated cancel. -/
def actualEdges : List (TaskStatus × TaskStatus) :=
  claimedEdges ++
  [(.cancelled, .inProgress), (.cancelled, .completed),
   (.cancelled, .failed), (.cancelled, .cancelled)]

/-! ### JSON-RPC dispatcher

`A2AJSONRPCHandler.handle_request` (lines 48-90) and the error codes of
`JSONRPCErrorCode` (src/resume_optimizer/a2a/messages.py).  A handler's
run is classified by the dispatcher's `try/except` ladder: a normal return,
a `ValueError`, or any other exception (with its traceback text). -/

inductive HOutcome where
  | ok (v : Val)
  | valueError (msg : String)
  | otherExc (msg : String) (tb : String)

structure JSONRPCErrorV where
  code : Int
  message : String
  data : Val
deriving DecidableEq, Repr

structure JSONRPCResponseV where
  id : Val
  result : Option Val
  error : Option JSONRPCErrorV
deriving DecidableEq, Repr

structure JSONRPCRequestV where
  id : Val
  method : String
  params : Val

/-- The method registry `self.methods`, in registration order. -/
def available_methods : List String :=
  ["message/send", "tasks/create", "tasks/get", "tasks/list",
   "tasks/cancel", "skills/list", "agent/info"]

def handle_request (hm : String → Val → HOutcome) (req : JSONRPCRequestV) :
    JSONRPCResponseV :=
  if available_methods.contains req.method then
    match hm req.method req.params with
    | .ok v => { id := req.id, result := some v, error := none }
    | .valueError m =>
        { id := req.id, result := none,
          error := some { code := -32602, message := m,
                          data := Val.objOf [("params_received", req.params)] } }
    | .otherExc m tb =>
        { id := req.id, result := none,
          error := some { code := -32603, message := "Internal error: " ++ m,
                          data := Val.objOf [("traceback", .vstr tb)] } }
  else
    { id := req.id, result := none,
      error := some
        { code := -32601,
          message := "Method '" ++ req.method ++ "' not found",
          data := Val.objOf
            [("available_methods", Val.arrOf (available_methods.map .vstr))] } }

/-! ### message/send

`A2AJSONRPCHandler.handle_message_send` (lines 92-141).  The skill ids come
from `RESUME_OPTIMIZER_AGENT_CARD.skills`
(src/resume_optimizer/a2a/agent_card.py).  `parse` is the
`A2AMessage(**message_data)` construction: it can fail with a pydantic
`ValidationError` — a `ValueError` subclass in pydantic v1, so the
dispatcher maps it to InvalidParams — or, when `message_data` is not a
mapping, with the `TypeError` Python raises at `**`, which the dispatcher's
`except Exception` maps to InternalError with a traceback.  `exec` is the
`_execute_*` skill body for the dispatched skill, classified like any
handler body. -/

/-- How `A2AMessage(**message_data)` can fail: a pydantic `ValidationError`
(a `ValueError`), or a `TypeError` on a non-mapping payload (carrying the
traceback text `traceback.format_exc()` later renders for it). -/
inductive ParseErr where
  | validationError (msg : String)
  | typeError (msg : String) (tb : String)

def validSkillIds : List String :=
  ["optimize-resume", "extract-job-description", "calculate-ats-score"]

/-- `f"Unknown skill '{skill_id}'. Valid skills: {valid_skills}"`. -/
def unknownSkillMsg (skillVal : Val) : String :=
  "Unknown skill '" ++ pyStr skillVal ++ "'. Valid skills: " ++
    pyReprStrList validSkillIds

/-- The success payload of `handle_message_send`: the agent's reply message
(`A2AMessage(...).dict()`), the dispatched skill id, the raw result and the
metadata block. -/
def sendResponseDict (now : Nat) (skill : String) (result : Val) : Val :=
  Val.objOf
    [("message", Val.objOf
        [("role", .vstr "agent"),
         ("author", .vstr "resume-optimizer-agent"),
         ("parts", Val.arrOf
            [Val.objOf [("type", .vstr "text"), ("text", .vstr (pyStr result))]]),
         ("timestamp", .vnum now),
         ("metadata", .vobjNil)]),
     ("skill_id", .vstr skill),
     ("result", result),
     ("metadata", Val.objOf
        [("execution_time_ms", .vnum 0),
         ("agent_version", .vstr "1.0.0")])]

def handle_message_send (parse : Val → Except ParseErr Val)
    (exec : String → Val → Val → HOutcome) (now : Nat) (params : Val) :
    HOutcome :=
  let message_data := (params.getField "message").getD .vobjNil
  if message_data.pyFalsy then .valueError "Missing 'message' parameter"
  else
    match parse message_data with
    | .error (.validationError e) => .valueError e
    | .error (.typeError e tb) => .otherExc e tb
    | .ok message =>
      let skillVal := (params.getField "skill_id").getD (.vstr "optimize-resume")
      match skillVal with
      | .vstr skill_id =>
        if validSkillIds.contains skill_id then
          let run := fun (sk : String) =>
            match exec sk message params with
            | .ok result => HOutcome.ok (sendResponseDict now sk result)
            | o => o
          if skill_id = "optimize-resume" then run "optimize-resume"
          else if skill_id = "extract-job-description" then
            run "extract-job-description"
          else if skill_id = "calculate-ats-score" then
            run "calculate-ats-score"
          else .valueError ("Skill '" ++ skill_id ++ "' not implemented yet")
        else .valueError (unknownSkillMsg skillVal)
      | v => .valueError (unknownSkillMsg v)

/-- The specification's reading of "the error data lists the valid skill
ids": every valid skill id occurs somewhere in the error's `data` payload. -/
def dataListsValidSkills (d : Val) : Prop :=
  ∀ s ∈ validSkillIds, s ∈ d.strings

instance (d : Val) : Decidable (dataListsValidSkills d) := by
  unfold dataListsValidSkills; infer_instance

/-! ### MCP client manager

`MCPClientManager` (src/resume_optimizer/mcp_client/connection.py):
`connect_server` (lines 52-113) reuses a live session or performs the
stdio + `initialize` handshake once; `list_tools` (lines 115-171) consults
`self._tools_cache` before connecting and issuing `tools/list`, and caches
the parsed result.  The wire round trips are recorded as an effect trace;
the server side is an oracle. -/

structure ToolDef where
  name : String
  description : String
  inputSchema : Val
deriving DecidableEq, Repr

structure MCPState where
  sessions : List String
  toolsCache : List (String × List ToolDef)
deriving DecidableEq, Repr

def initialMCPState : MCPState := { sessions := [], toolsCache := [] }

/-- The configured servers (`_load_server_configs`). -/
def serverConfigs : List String := ["resume-tools"]

inductive MCPEffect where
  | connectHandshake (server : String)
  | toolsListRequest (server : String)
deriving DecidableEq, Repr

structure MCPEnv where
  connectFails : String → Bool
  listFails : String → Bool
  serverTools : String → List ToolDef

def connect_server (env : MCPEnv) (st : MCPState) (server_name : String) :
    Except String Unit × MCPState × List MCPEffect :=
  if st.sessions.contains server_name then (.ok (), st, [])
  else if ¬ serverConfigs.contains server_name then
    (.error ("Unknown server: " ++ server_name), st, [])
  else if env.connectFails server_name then
    (.error ("MCP connection failed for " ++ server_name), st,
     [.connectHandshake server_name])
  else
    (.ok (), { st with sessions := st.sessions ++ [server_name] },
     [.connectHandshake server_name])

def list_tools (env : MCPEnv) (st : MCPState) (server_name : String) :
    Except String (List ToolDef) × MCPState × List MCPEffect :=
  match List.lookup server_name st.toolsCache with
  | some tools => (.ok tools, st, [])
  | none =>
    match connect_server env st server_name with
    | (.error e, st', effs) => (.error e, st', effs)
    | (.ok _, st', effs) =>
      if env.listFails server_name then
        (.error ("Failed to list tools from " ++ server_name), st',
         effs ++ [.toolsListRequest server_name])
      else
        let tools := env.serverTools server_name
        (.ok tools,
         { st' with toolsCache := st'.toolsCache ++ [(server_name, tools)] },
         effs ++ [.toolsListRequest server_name])

/-! ### call_tool

`MCPClientManager.call_tool` (lines 173-244).  The session reply is an
oracle: either the stringified exception of the underlying call, or a
content list whose items may or may not carry a `text` attribute.
`json.loads` is the oracle `parse` (returning `none` on
`json.JSONDecodeError`). -/

inductive ContentItem where
  | textItem (text : String)
  | otherItem (tag : String)
deriving DecidableEq, Repr

inductive ToolCallValue where
  | noValue
  | jsonValue (v : Val)
  | rawText (s : String)
  | contentObj (tag : String)
deriving DecidableEq, Repr

def call_tool (parse : String → Option Val) (tool_name : String)
    (sessionResult : Except String (List ContentItem)) :
    Except String ToolCallValue :=
  match sessionResult with
  | .error e => .error ("Tool '" ++ tool_name ++ "' execution failed: " ++ e)
  | .ok items =>
    match items with
    | [] => .ok .noValue
    | c :: _ =>
      match c with
      | .textItem t =>
        match parse t with
        | some j => .ok (.jsonValue j)
        | none => .ok (.rawText t)
      | .otherItem tag => .ok (.contentObj tag)

/-! ### Step 1: job description extraction

`JobDescriptionExtractorCrew.extract_job_description` and its helpers
(src/resume_optimizer/agents/job_description_extractor.py, lines 71-303)
and the stage-1 block of `ResumeOptimizerWorkflow.run_workflow`
(src/resume_optimizer/workflow/orchestrator.py, lines 198-230), whose
`except Exception` re-raises.  The web request, the CrewAI kickoff, the
JSON-parse attempts on the crew output, and the keyword heuristics are
oracles.  A job-data dict is a field list. -/

inductive ScrapeOutcome where
  | scraped (content : String)
  | scrapeError (msg : String)

inductive CrewOutcome where
  | kickoffOk (result_str : String)
  | kickoffExc (msg : String)

structure ExtractEnv where
  scrape : ScrapeOutcome
  crew : CrewOutcome
  /-- Joint outcome of the three JSON-parse attempts on `str(result)`:
  `some` fields when one of them produced a dict. -/
  parsedJob : Option (List (String × Val))
  skillsOf : String → List String
  keywordsOf : String → List String

/-- `_scrape_webpage`: the scraped text, or the error string built in its
`except` clause. -/
def _scrape_webpage (o : ScrapeOutcome) (url : String) : String :=
  match o with
  | .scraped c => c
  | .scrapeError m => "Failed to scrape URL: " ++ url ++ ". Error: " ++ m

def strArr (xs : List String) : Val :=
  Val.arrOf (xs.map .vstr)

/-- Helper for `pySplit`: walk the characters, cutting at each separator. -/
def pySplitAux (sep : Char) : List Char → List Char → List String
  | [], acc => [String.mk acc.reverse]
  | c :: rest, acc =>
    if c = sep then String.mk acc.reverse :: pySplitAux sep rest []
    else pySplitAux sep rest (c :: acc)

/-- Python's `s.split(sep)` for a one-character separator: splits at every
occurrence, keeping empty pieces. -/
def pySplit (s : String) (sep : Char) : List String :=
  pySplitAux sep s.data []

/-- `_create_fallback_job_data`: raises `IndexError` when
`job_url.split('/')` has no element at index 2 (this call is outside any
`try`). -/
def _create_fallback_job_data (job_url : String) :
    Except String (List (String × Val)) :=
  match (pySplit job_url '/').get? 2 with
  | none => .error "IndexError: list index out of range"
  | some host =>
    .ok
      [("job_title", .vstr "Software Engineer"),
       ("company", .vstr ("Tech Company (from " ++ host ++ ")")),
       ("location", .vstr "Remote/Hybrid"),
       ("job_summary", .vstr
          "Software engineering position requiring technical skills and experience."),
       ("required_skills", strArr ["Python", "JavaScript", "SQL", "Git", "REST APIs"]),
       ("preferred_skills", strArr ["React", "Node.js", "AWS", "Docker"]),
       ("responsibilities", strArr
          ["Develop and maintain software applications",
           "Collaborate with cross-functional teams",
           "Write clean, maintainable code"]),
       ("qualifications", strArr
          ["Bachelor's degree in Computer Science or related field",
           "2+ years of software development experience"]),
       ("keywords", strArr
          ["software", "engineer", "developer", "programming", "coding", "technical"]),
       ("raw_output", .vstr "Scraped content not available"),
       ("note", .vstr "Fallback data used - actual job posting not accessible")]

/-- The error dict returned by the outer `except Exception` around the crew
kickoff and result parsing. -/
def crewErrorDict (e : String) : List (String × Val) :=
  [("error", .vstr e),
   ("job_title", .vstr "Software Engineer"),
   ("company", .vstr "Tech Company"),
   ("location", .vstr "Remote"),
   ("required_skills", strArr ["Python", "JavaScript", "SQL"]),
   ("keywords", strArr ["software", "engineer", "developer", "programming"]),
   ("job_summary", .vstr "Software engineering position")]

/-- `dict.setdefault(k, v)`. -/
def setdefault (fs : List (String × Val)) (k : String) (v : Val) :
    List (String × Val) :=
  if (List.lookup k fs).isSome then fs else fs ++ [(k, v)]

/-- The `setdefault` block run on every parsed job dict. -/
def withJobDefaults (fs : List (String × Val)) : List (String × Val) :=
  setdefault
    (setdefault
      (setdefault (setdefault fs "required_skills" .varrNil) "keywords" .varrNil)
      "job_title" (.vstr "Software Engineer"))
    "company" (.vstr "Unknown Company")

/-- The "fallback parsing" dict built from the raw crew text when no JSON
could be extracted; its `job_url.split('/')[2]` sits inside the outer
`try`, so an `IndexError` there lands in the `except Exception` clause. -/
def fallbackParseDict (env : ExtractEnv) (job_url result_str : String) :
    List (String × Val) :=
  match (pySplit job_url '/').get? 2 with
  | none => crewErrorDict "list index out of range"
  | some host =>
    [("job_title", .vstr ("Position from " ++ host)),
     ("company", .vstr "See job posting"),
     ("location", .vstr "Not specified"),
     ("job_summary", .vstr (result_str.take 500)),
     ("required_skills", strArr (env.skillsOf result_str)),
     ("preferred_skills", .varrNil),
     ("responsibilities", .varrNil),
     ("qualifications", .varrNil),
     ("keywords", strArr (env.keywordsOf result_str)),
     ("raw_output", .vstr result_str)]

def extract_job_description (env : ExtractEnv) (job_url : String) :
    Except String (List (String × Val)) :=
  let scraped_content := _scrape_webpage env.scrape job_url
  if scraped_content.length < 100 then _create_fallback_job_data job_url
  else
    match env.crew with
    | .kickoffExc e => .ok (crewErrorDict e)
    | .kickoffOk result_str =>
      let job_data :=
        match env.parsedJob with
        | some fs =>
          if fs.isEmpty then fallbackParseDict env job_url result_str else fs
        | none => fallbackParseDict env job_url result_str
      .ok (withJobDefaults job_data)

/-- `ctx.session.state[k] = v` on the session-state dict. -/
def setStateKey (state : List (String × Val)) (k : String) (v : Val) :
    List (String × Val) :=
  if (List.lookup k state).isSome then
    state.map fun kv => if kv.1 = k then (k, v) else kv
  else state ++ [(k, v)]

/-- The stage-1 block of `run_workflow`: on a raise the orchestrator's
`except Exception` logs and re-raises (aborting the run); on a dict it is
written into `ctx.session.state["job_description"]`. -/
def runStep1 (env : ExtractEnv) (job_url : String)
    (state : List (String × Val)) : Except String (List (String × Val)) :=
  match extract_job_description env job_url with
  | .error e => .error e
  | .ok jd => .ok (setStateKey state "job_description" (Val.objOf jd))

/-! ### Concrete fixtures used by counterexamples and witnesses -/

def cTask : A2ATask :=
  { id := "task-1", status := .cancelled, skill_id := "optimize-resume",
    input := .vobjNil, created_at := 1, updated_at := 2 }

def pTask : A2ATask :=
  { id := "task-2", status := .pending, skill_id := "optimize-resume",
    input := .vobjNil, created_at := 3, updated_at := 3 }

def wTask1 : A2ATask :=
  { id := "task-3", status := .failed, skill_id := "optimize-resume",
    input := .vobjNil, error := some "boom", created_at := 4, updated_at := 5 }

def wTask2 : A2ATask :=
  { id := "task-4", status := .completed, skill_id := "optimize-resume",
    input := .vobjNil, output := some .vobjNil, created_at := 6,
    updated_at := 7, completed_at := some 7 }

def wStore : Store := [("task-3", wTask1), ("task-4", wTask2)]

def t0 : A2ATask :=
  { id := "task-0", status := .pending, skill_id := "calculate-ats-score",
    input := .vobjNil, created_at := 0, updated_at := 0 }

/-- A well-formed `A2AMessage` payload: a mapping carrying all the required
fields (`role`, `author`, `parts`), which the real pydantic validation
accepts. -/
def cMsgVal : Val :=
  Val.objOf
    [("role", .vstr "user"),
     ("author", .vstr "user-1"),
     ("parts", Val.arrOf
        [Val.objOf [("type", .vstr "text"),
                    ("text", .vstr "please optimize my resume")]])]

/-- A `message/send` params payload carrying a valid message and an unknown
skill id. -/
def cParams : Val :=
  Val.objOf [("message", cMsgVal), ("skill_id", .vstr "unknown-skill")]

/-- A pydantic oracle consistent with `A2AMessage(**message_data)` at every
payload shape: it accepts the well-formed `cMsgVal`, rejects other mappings
with a `ValidationError`, and signals the `TypeError` Python raises when
`**` is applied to a non-mapping. -/
def cParse : Val → Except ParseErr Val := fun v =>
  if v = cMsgVal then .ok v
  else
    match v with
    | .vobjCons _ _ _ =>
        .error (.validationError "validation error for A2AMessage")
    | .vobjNil => .error (.validationError "field required")
    | _ => .error (.typeError
        "argument of type A2AMessage after ** must be a mapping"
        "Traceback (most recent call last): TypeError")

/-- A skill-body oracle that returns an empty result. -/
def cExec : String → Val → Val → HOutcome := fun _ _ _ => .ok .vnull

/-- The dispatcher's handler map with the real `message/send` handler wired
in (the other methods are irrelevant to the statements using it). -/
def cHm : String → Val → HOutcome := fun m p =>
  if m = "message/send" then handle_message_send cParse cExec 0 p
  else .ok .vnull

def cRequest : JSONRPCRequestV :=
  { id := .vnum 1, method := "message/send", params := cParams }

/-- A handler map whose bodies all raise a non-`ValueError` exception. -/
def wHm : String → Val → HOutcome :=
  fun _ _ => .otherExc "boom" "Traceback (most recent call last): boom"

def wReq : JSONRPCRequestV :=
  { id := .vnum 7, method := "tasks/get", params := .vobjNil }

/-- A well-formed message payload used by the C9 witness. -/
def wMsgVal9 : Val :=
  Val.objOf
    [("role", .vstr "user"),
     ("author", .vstr "user-1"),
     ("parts", Val.arrOf
        [Val.objOf [("type", .vstr "text"), ("text", .vstr "hello")]])]

/-- A `message/send` params payload with no `skill_id` key. -/
def wParams9 : Val := Val.objOf [("message", wMsgVal9)]

/-- A pydantic oracle accepting the well-formed `wMsgVal9`, with the same
faithful failure modes as `cParse` elsewhere. -/
def wParse9 : Val → Except ParseErr Val := fun v =>
  if v = wMsgVal9 then .ok v
  else
    match v with
    | .vobjCons _ _ _ =>
        .error (.validationError "validation error for A2AMessage")
    | .vobjNil => .error (.validationError "field required")
    | _ => .error (.typeError
        "argument of type A2AMessage after ** must be a mapping"
        "Traceback (most recent call last): TypeError")

/-- A skill-body oracle returning a fixed string result. -/
def wExec9 : String → Val → Val → HOutcome := fun _ _ _ => .ok (.vstr "done")

def wTool : ToolDef :=
  { name := "calculate_ats_score",
    description := "Calculate ATS compatibility score",
    inputSchema := .vobjNil }

/-- An MCP server environment where handshake and discovery succeed. -/
def mcpEnv0 : MCPEnv :=
  { connectFails := fun _ => false, listFails := fun _ => false,
    serverTools := fun _ => [wTool] }

/-- A `json.loads` oracle that parses exactly the text "42". -/
def wParse10 : String → Option Val :=
  fun t => if t = "42" then some (.vnum 42) else none

/-- A step-1 environment for the degenerate URL "x": the web request fails
(requests raises MissingSchema with this exact message), and the crew is
never consulted because the scraped text stays under 100 characters. -/
def cExtractEnv : ExtractEnv :=
  { scrape := .scrapeError
      "Invalid URL 'x': No scheme supplied. Perhaps you meant https://x?",
    crew := .kickoffOk "",
    parsedJob := none,
    skillsOf := fun _ => [],
    keywordsOf := fun _ => [] }

/-! ## Theorems -/

/-- C2 counterexample: the claim says `tasks/cancel` on a task in any
terminal status (`completed`, `failed` or `cancelled`) returns a declared
error and leaves the record unchanged, but `handle_task_cancel` only
rejects `completed` and `failed`: on a `cancelled` task it succeeds and
re-stamps `updated_at`. -/
theorem tasks_cancel_terminal_counterexample :
    cTask.status = .cancelled ∧
    handle_task_cancel 5 [("task-1", cTask)] (some "task-1") =
      ([("task-1", { cTask with status := .cancelled, updated_at := 5 })],
       .ok { cTask with status := .cancelled, updated_at := 5 }) := by
  exact ⟨rfl, rfl⟩

/-- C2 (amended): `tasks/cancel` on a stored task returns the declared
`ValueError` and leaves the store unchanged exactly when the task is
`completed` or `failed`; from `pending`, `in_progress` or `cancelled` it
succeeds, setting the status to `cancelled` and `updated_at` to the call
time while every other field of the record is kept. -/
theorem tasks_cancel_spec (now : Nat) (store : Store) (tid : String)
    (t : A2ATask) (hlook : List.lookup tid store = some t) (htid : tid ≠ "") :
    ((t.status = .completed ∨ t.status = .failed) →
      handle_task_cancel now store (some tid) =
        (store, .error ("Cannot cancel " ++ t.status.toStr ++ " task"))) ∧
    ((t.status = .pending ∨ t.status = .inProgress ∨ t.status = .cancelled) →
      handle_task_cancel now store (some tid) =
        (storeSet store tid { t with status := .cancelled, updated_at := now },
         .ok { t with status := .cancelled, updated_at := now })) := by
  constructor
  · intro hterm
    simp only [handle_task_cancel, pyTruthyStr, if_neg htid, hlook]
    rw [if_pos hterm]
  · intro hact
    simp only [handle_task_cancel, pyTruthyStr, if_neg htid, hlook]
    rw [if_neg (by rcases hact with h | h | h <;> simp [h])]

theorem tasks_cancel_spec_witness :
    ((pTask.status = .completed ∨ pTask.status = .failed) →
      handle_task_cancel 9 [("task-2", pTask)] (some "task-2") =
        ([("task-2", pTask)],
         .error ("Cannot cancel " ++ pTask.status.toStr ++ " task"))) ∧
    ((pTask.status = .pending ∨ pTask.status = .inProgress ∨
        pTask.status = .cancelled) →
      handle_task_cancel 9 [("task-2", pTask)] (some "task-2") =
        (storeSet [("task-2", pTask)] "task-2"
           { pTask with status := .cancelled, updated_at := 9 },
         .ok { pTask with status := .cancelled, updated_at := 9 })) :=
  tasks_cancel_spec 9 [("task-2", pTask)] "task-2" pTask rfl (by decide)

/-- C3: the spawned `_execute_task` first stamps the task `in_progress`;
when the skill body returns a result it stores the output, marks the task
`completed` and sets `completed_at`; when the body raises it stores the
stringified exception, marks the task `failed`, and (for a freshly created
task) leaves `completed_at` unset.  The outcome is applied exactly once:
there is no retry. -/
theorem execute_task_state_machine (now₁ now₂ : Nat)
    (outcome : Except String Val) (t : A2ATask)
    (hfresh : t.completed_at = none) :
    (executeTask_start now₁ t).status = .inProgress ∧
    (∀ r, outcome = .ok r →
      _execute_task now₁ now₂ outcome t =
        { t with status := .completed, output := some r,
                 completed_at := some now₂, updated_at := now₂ }) ∧
    (∀ e, outcome = .error e →
      _execute_task now₁ now₂ outcome t =
        { t with status := .failed, error := some e, updated_at := now₂ } ∧
      (_execute_task now₁ now₂ outcome t).completed_at = none) := by
  refine ⟨rfl, ?_, ?_⟩
  · intro r h; subst h; rfl
  · intro e h; subst h
    exact ⟨rfl, by simpa [_execute_task, executeTask_finish, executeTask_start]
      using hfresh⟩

theorem execute_task_state_machine_witness :
    (executeTask_start 1 t0).status = .inProgress ∧
    _execute_task 1 2 (Except.ok .vnull) t0 =
      { t0 with status := .completed, output := some .vnull,
                completed_at := some 2, updated_at := 2 } ∧
    _execute_task 1 2 (Except.error "ValueError: boom") t0 =
      { t0 with status := .failed, error := some "ValueError: boom",
                updated_at := 2 } :=
  ⟨(execute_task_state_machine 1 2 (.ok .vnull) t0 rfl).1,
   (execute_task_state_machine 1 2 (.ok .vnull) t0 rfl).2.1 .vnull rfl,
   ((execute_task_state_machine 1 2 (.error "ValueError: boom") t0 rfl).2.2
      "ValueError: boom" rfl).1⟩

/-- Program-counter/status invariant of the interleaved system: before the
execution starts the status is `pending` or `cancelled`; while the body
runs it is `in_progress` or `cancelled`; after the finish phase it is
`completed` or `failed`. -/
theorem execInv_of_reachable (s : ExecState) (h : ReachableExec s) :
    (s.pc = 0 → s.status = .pending ∨ s.status = .cancelled) ∧
    (s.pc = 1 → s.status = .inProgress ∨ s.status = .cancelled) ∧
    (2 ≤ s.pc → s.status = .completed ∨ s.status = .failed) := by
  induction h with
  | refl =>
    exact ⟨fun _ => Or.inl rfl, fun h => absurd h (by decide),
           fun h => absurd h (by decide)⟩
  | tail hab hbc ih =>
    cases hbc with
    | execStart h =>
      exact ⟨fun h => absurd h (by decide), fun _ => Or.inl rfl,
             fun h => absurd h (by decide)⟩
    | execFinishOk h =>
      exact ⟨fun h => absurd h (by decide), fun h => absurd h (by decide),
             fun _ => Or.inl rfl⟩
    | execFinishErr h =>
      exact ⟨fun h => absurd h (by decide), fun h => absurd h (by decide),
             fun _ => Or.inr rfl⟩
    | cancel h =>
      exact ⟨fun _ => Or.inr rfl, fun _ => Or.inr rfl,
             fun h2 => absurd (ih.2.2 h2) h⟩

/-- C1 counterexample: the claim restricts every reachable interleaved
transition to `claimedEdges` (so no edge leaves a terminal state), but a
`tasks/cancel` processed before the spawned `_execute_task` runs is
overwritten by its unconditional `in_progress` write
(`cancelled → in_progress`), and a cancel landing while the skill body
runs is overwritten by the unconditional finish write
(`cancelled → completed`).  Both source states are reachable and
`cancelled` is terminal. -/
theorem task_status_leaves_terminal_counterexample :
    ReachableExec { status := .cancelled, pc := 0 } ∧
    TaskStep { status := .cancelled, pc := 0 } { status := .inProgress, pc := 1 } ∧
    (TaskStatus.cancelled, TaskStatus.inProgress) ∉ claimedEdges ∧
    ReachableExec { status := .cancelled, pc := 1 } ∧
    TaskStep { status := .cancelled, pc := 1 } { status := .completed, pc := 2 } ∧
    (TaskStatus.cancelled, TaskStatus.completed) ∉ claimedEdges := by
  refine ⟨?_, ?_, ?_, ?_, ?_, ?_⟩
  · exact Relation.ReflTransGen.single (TaskStep.cancel initExecState (by decide))
  · exact TaskStep.execStart _ rfl
  · decide
  · exact Relation.ReflTransGen.tail
      (Relation.ReflTransGen.single (TaskStep.execStart initExecState rfl))
      (TaskStep.cancel { status := .inProgress, pc := 1 } (by decide))
  · exact TaskStep.execFinishOk _ rfl
  · decide

/-- C1 (amended): under every interleaving of the spawned `_execute_task`
with `tasks/cancel`, reachable status transitions traverse only
`actualEdges`: the five claimed edges plus the edges out of `cancelled`
(`cancelled → in_progress`, `cancelled → completed`, `cancelled → failed`
and the `cancelled → cancelled` self-loop).  No transition ever leaves
`completed` or `failed`. -/
theorem task_status_transitions_actual (s s' : ExecState)
    (hreach : ReachableExec s) (hstep : TaskStep s s') :
    (s.status, s'.status) ∈ actualEdges ∧
    s.status ≠ .completed ∧ s.status ≠ .failed := by
  have inv := execInv_of_reachable s hreach
  cases hstep with
  | execStart h =>
    rcases inv.1 h with h1 | h1 <;> rw [h1] <;>
      exact ⟨by decide, by decide, by decide⟩
  | execFinishOk h =>
    rcases inv.2.1 h with h1 | h1 <;> rw [h1] <;>
      exact ⟨by decide, by decide, by decide⟩
  | execFinishErr h =>
    rcases inv.2.1 h with h1 | h1 <;> rw [h1] <;>
      exact ⟨by decide, by decide, by decide⟩
  | cancel h =>
    have hproj : ({ status := TaskStatus.cancelled, pc := s.pc } : ExecState).status
        = TaskStatus.cancelled := rfl
    rw [hproj]
    cases hst : s.status <;> rw [hst] at h <;>
      first
      | exact False.elim (h (by decide))
      | exact ⟨by decide, by decide, by decide⟩

theorem task_status_transitions_actual_witness :
    (TaskStatus.pending, TaskStatus.inProgress) ∈ actualEdges ∧
    TaskStatus.pending ≠ TaskStatus.completed ∧
    TaskStatus.pending ≠ TaskStatus.failed :=
  task_status_transitions_actual initExecState { status := .inProgress, pc := 1 }
    Relation.ReflTransGen.refl (TaskStep.execStart initExecState rfl)

/-- The stable descending sort is a permutation of its input. -/
theorem sortByCreatedDesc_perm (ts : List A2ATask) :
    (sortByCreatedDesc ts).Perm ts :=
  List.mergeSort_perm ts createdDescLe

theorem createdDescLe_trans :
    ∀ a b c : A2ATask, createdDescLe a b → createdDescLe b c → createdDescLe a c := by
  intro a b c h1 h2
  simp only [createdDescLe, decide_eq_true_eq] at h1 h2 ⊢
  omega

theorem createdDescLe_total :
    ∀ a b : A2ATask, createdDescLe a b || createdDescLe b a := by
  intro a b
  simp only [createdDescLe, Bool.or_eq_true, decide_eq_true_eq]
  omega

/-- The stable descending sort is sorted by `created_at` descending. -/
theorem sortByCreatedDesc_sorted (ts : List A2ATask) :
    (sortByCreatedDesc ts).Pairwise (fun a b => b.created_at ≤ a.created_at) := by
  have h := List.sorted_mergeSort createdDescLe_trans createdDescLe_total ts
  exact List.Pairwise.imp
    (fun hab => by simpa [createdDescLe] using hab) h

/-- C5: `tasks/list` returns exactly the stored tasks whose status equals a
given (nonempty) status filter — all stored tasks when the filter is absent
or empty (falsy) — sorted by `created_at` descending, and the returned page
is the `offset`-th through `(offset+limit-1)`-th elements of that sorted
sequence; `total` counts the whole filtered sequence. -/
theorem handle_task_list_spec (store : Store) (status_filter : Option String)
    (limit offset : Nat) :
    (∀ s, status_filter = some s → s ≠ "" →
      ∃ sorted : List A2ATask,
        sorted.Perm ((store.map (·.2)).filter (statusMatches s)) ∧
        sorted.Pairwise (fun a b => b.created_at ≤ a.created_at) ∧
        (handle_task_list store status_filter limit offset).tasks =
          (sorted.drop offset).take limit ∧
        (handle_task_list store status_filter limit offset).total =
          ((store.map (·.2)).filter (statusMatches s)).length) ∧
    (status_filter = none ∨ status_filter = some "" →
      ∃ sorted : List A2ATask,
        sorted.Perm (store.map (·.2)) ∧
        sorted.Pairwise (fun a b => b.created_at ≤ a.created_at) ∧
        (handle_task_list store status_filter limit offset).tasks =
          (sorted.drop offset).take limit ∧
        (handle_task_list store status_filter limit offset).total =
          (store.map (·.2)).length) := by
  constructor
  · intro s hs hne
    subst hs
    refine ⟨sortByCreatedDesc ((store.map (·.2)).filter (statusMatches s)),
      sortByCreatedDesc_perm _, sortByCreatedDesc_sorted _, ?_, ?_⟩
    · simp [handle_task_list, hne]
    · simp only [handle_task_list, if_neg hne]
      exact (sortByCreatedDesc_perm _).length_eq
  · intro hnone
    rcases hnone with h | h <;> subst h
    · exact ⟨sortByCreatedDesc (store.map (·.2)), sortByCreatedDesc_perm _,
        sortByCreatedDesc_sorted _, by simp [handle_task_list],
        (sortByCreatedDesc_perm _).length_eq⟩
    · exact ⟨sortByCreatedDesc (store.map (·.2)), sortByCreatedDesc_perm _,
        sortByCreatedDesc_sorted _, by simp [handle_task_list],
        (sortByCreatedDesc_perm _).length_eq⟩

theorem handle_task_list_spec_witness :
    ∃ sorted : List A2ATask,
      sorted.Perm ((wStore.map (·.2)).filter (statusMatches "failed")) ∧
      sorted.Pairwise (fun a b => b.created_at ≤ a.created_at) ∧
      (handle_task_list wStore (some "failed") 10 0).tasks =
        (sorted.drop 0).take 10 ∧
      (handle_task_list wStore (some "failed") 10 0).total =
        ((wStore.map (·.2)).filter (statusMatches "failed")).length :=
  (handle_task_list_spec wStore (some "failed") 10 0).1 "failed" rfl (by decide)

/-- C8: the JSON-RPC dispatcher is total — it returns a `JSONRPCResponse`
(with the request's id) for every request and handler behaviour: an
unknown method yields MethodNotFound (-32601) listing the available
methods, a handler `ValueError` yields InvalidParams (-32602) echoing the
received params, any other handler exception yields InternalError (-32603)
carrying the traceback, and a normal handler return yields a result with
no error. -/
theorem handle_request_total (hm : String → Val → HOutcome)
    (req : JSONRPCRequestV) :
    (handle_request hm req).id = req.id ∧
    (available_methods.contains req.method = false →
      handle_request hm req =
        { id := req.id, result := none,
          error := some { code := -32601,
                          message := "Method '" ++ req.method ++ "' not found",
                          data := Val.objOf [("available_methods",
                              Val.arrOf (available_methods.map .vstr))] } }) ∧
    (∀ v, hm req.method req.params = .ok v →
      available_methods.contains req.method = true →
      handle_request hm req = { id := req.id, result := some v, error := none }) ∧
    (∀ m, hm req.method req.params = .valueError m →
      available_methods.contains req.method = true →
      handle_request hm req =
        { id := req.id, result := none,
          error := some { code := -32602, message := m,
                          data := Val.objOf [("params_received", req.params)] } }) ∧
    (∀ m tb, hm req.method req.params = .otherExc m tb →
      available_methods.contains req.method = true →
      handle_request hm req =
        { id := req.id, result := none,
          error := some { code := -32603, message := "Internal error: " ++ m,
                          data := Val.objOf [("traceback", .vstr tb)] } }) := by
  refine ⟨?_, ?_, ?_, ?_, ?_⟩
  · by_cases hc : req.method ∈ available_methods
    · cases hout : hm req.method req.params <;> simp [handle_request, hc, hout]
    · simp [handle_request, hc]
  · intro hnc
    have hnc' : req.method ∉ available_methods := by simpa using hnc
    simp [handle_request, hnc']
  · intro v hv hc
    have hc' : req.method ∈ available_methods := by simpa using hc
    simp [handle_request, hc', hv]
  · intro m hv hc
    have hc' : req.method ∈ available_methods := by simpa using hc
    simp [handle_request, hc', hv]
  · intro m tb hv hc
    have hc' : req.method ∈ available_methods := by simpa using hc
    simp [handle_request, hc', hv]

theorem handle_request_total_witness :
    handle_request wHm wReq =
      { id := wReq.id, result := none,
        error := some { code := -32603,
                        message := "Internal error: " ++ "boom",
                        data := Val.objOf [("traceback",
                            .vstr "Traceback (most recent call last): boom")] } } ∧
    handle_request cHm { cRequest with method := "no/such" } =
      { id := cRequest.id, result := none,
        error := some { code := -32601,
                        message := "Method '" ++ "no/such" ++ "' not found",
                        data := Val.objOf [("available_methods",
                            Val.arrOf (available_methods.map .vstr))] } } :=
  ⟨(handle_request_total wHm wReq).2.2.2.2 "boom"
      "Traceback (most recent call last): boom" rfl (by decide),
   (handle_request_total cHm { cRequest with method := "no/such" }).2.1 (by decide)⟩

/-- C4 (amended): a `message/send` request whose `skill_id` is an unknown
string produces a JSON-RPC error with code -32602 (InvalidParams) whose
error *message* lists the valid skill ids (it ends with the rendered list
`['optimize-resume', 'extract-job-description', 'calculate-ats-score']`),
while the error *data* echoes the received params as
`{"params_received": ...}`. -/
theorem message_send_unknown_skill_spec
    (parse : Val → Except ParseErr Val) (exec : String → Val → Val → HOutcome)
    (now : Nat) (hm : String → Val → HOutcome) (req : JSONRPCRequestV)
    (s : String) (mv m : Val)
    (hhm : hm "message/send" = handle_message_send parse exec now)
    (hmeth : req.method = "message/send")
    (hmsg : req.params.getField "message" = some mv)
    (hfal : mv.pyFalsy = false)
    (hparse : parse mv = .ok m)
    (hsk : req.params.getField "skill_id" = some (.vstr s))
    (hinv : validSkillIds.contains s = false) :
    handle_request hm req =
      { id := req.id, result := none,
        error := some
          { code := -32602,
            message := "Unknown skill '" ++ s ++ "'. Valid skills: " ++
              pyReprStrList validSkillIds,
            data := Val.objOf [("params_received", req.params)] } } := by
  have hcontains : req.method ∈ available_methods := by
    rw [hmeth]; decide
  have hinv' : s ∉ validSkillIds := by simpa using hinv
  have hout : hm req.method req.params = .valueError
      ("Unknown skill '" ++ s ++ "'. Valid skills: " ++
        pyReprStrList validSkillIds) := by
    rw [hmeth, hhm]
    simp [handle_message_send, hmsg, hfal, hparse, hsk, hinv',
          unknownSkillMsg, pyStr]
  simp [handle_request, hcontains, hout]

theorem message_send_unknown_skill_spec_witness :
    handle_request cHm cRequest =
      { id := cRequest.id, result := none,
        error := some
          { code := -32602,
            message := "Unknown skill '" ++ "unknown-skill" ++
              "'. Valid skills: " ++ pyReprStrList validSkillIds,
            data := Val.objOf [("params_received", cRequest.params)] } } :=
  message_send_unknown_skill_spec cParse cExec 0 cHm cRequest "unknown-skill"
    cMsgVal cMsgVal rfl rfl rfl rfl rfl rfl (by decide)

/-- C4 counterexample: on a concrete `message/send` request with an unknown
skill id, the -32602 error's `data` member is the params echo and does not
list (or even mention) any of the valid skill ids; the ids appear only in
the error `message`. -/
theorem message_send_unknown_skill_counterexample :
    (handle_request cHm cRequest).error =
      some { code := -32602,
             message := "Unknown skill 'unknown-skill'. Valid skills: ['optimize-resume', 'extract-job-description', 'calculate-ats-score']",
             data := Val.objOf [("params_received", cParams)] } ∧
    ¬ dataListsValidSkills (Val.objOf [("params_received", cParams)]) := by
  constructor
  · rfl
  · decide

/-- C9: a `message/send` request that omits `skill_id` is not rejected for
a missing field: the handler silently defaults the skill to
`"optimize-resume"` and dispatches the request to that skill's executor;
the success payload carries `skill_id = "optimize-resume"`. -/
theorem message_send_default_skill
    (parse : Val → Except ParseErr Val) (exec : String → Val → Val → HOutcome)
    (now : Nat) (params mv m : Val)
    (hsk : params.getField "skill_id" = none)
    (hmsg : params.getField "message" = some mv)
    (hfal : mv.pyFalsy = false)
    (hparse : parse mv = .ok m) :
    handle_message_send parse exec now params =
      (match exec "optimize-resume" m params with
        | .ok result => HOutcome.ok (sendResponseDict now "optimize-resume" result)
        | o => o) ∧
    (∀ r, exec "optimize-resume" m params = .ok r →
      (sendResponseDict now "optimize-resume" r).getField "skill_id" =
        some (.vstr "optimize-resume")) := by
  constructor
  · have hval : "optimize-resume" ∈ validSkillIds := by decide
    simp [handle_message_send, hmsg, hfal, hparse, hsk, hval]
  · intro r hr
    simp [sendResponseDict, Val.objOf, Val.getField]

theorem message_send_default_skill_witness :
    handle_message_send wParse9 wExec9 3 wParams9 =
      .ok (sendResponseDict 3 "optimize-resume" (.vstr "done")) ∧
    (sendResponseDict 3 "optimize-resume" (.vstr "done")).getField "skill_id" =
      some (.vstr "optimize-resume") := by
  have H := message_send_default_skill wParse9 wExec9 3 wParams9 wMsgVal9
    wMsgVal9 rfl rfl rfl rfl
  exact ⟨H.1, H.2 (.vstr "done") rfl⟩

/-- Looking up a key appended at the end of an association list in which it
was absent. -/
theorem lookup_append_singleton {β : Type} (k : String) (v : β)
    (l : List (String × β)) (h : List.lookup k l = none) :
    List.lookup k (l ++ [(k, v)]) = some v := by
  induction l with
  | nil => simp [List.lookup]
  | cons a t ih =>
    rw [List.cons_append]
    cases a with
    | mk k1 v1 =>
      by_cases hk : k == k1
      · simp [List.lookup, hk] at h
      · simp only [List.lookup, hk] at h ⊢
        exact ih h

/-- C6: on an endpoint with no cached tools and no live session, the first
`list_tools` call performs exactly one handshake (`connect_server`'s stdio
plus `initialize`) followed by one `tools/list` round trip, caching the
result; the second call on the same endpoint, with no disconnect in
between, returns the cached list, issues no wire request at all, and
leaves the sessions and the cache unchanged. -/
theorem list_tools_caches (env : MCPEnv) (st : MCPState) (server_name : String)
    (hcache : List.lookup server_name st.toolsCache = none)
    (hsess : server_name ∉ st.sessions)
    (hconf : server_name ∈ serverConfigs)
    (hconn : env.connectFails server_name = false)
    (hlist : env.listFails server_name = false) :
    list_tools env st server_name =
      (.ok (env.serverTools server_name),
       { sessions := st.sessions ++ [server_name],
         toolsCache := st.toolsCache ++
           [(server_name, env.serverTools server_name)] },
       [.connectHandshake server_name, .toolsListRequest server_name]) ∧
    list_tools env
      { sessions := st.sessions ++ [server_name],
        toolsCache := st.toolsCache ++
          [(server_name, env.serverTools server_name)] } server_name =
      (.ok (env.serverTools server_name),
       { sessions := st.sessions ++ [server_name],
         toolsCache := st.toolsCache ++
           [(server_name, env.serverTools server_name)] },
       []) := by
  constructor
  · simp [list_tools, connect_server, hcache, hsess, hconf, hconn, hlist]
  · have hl := lookup_append_singleton server_name (env.serverTools server_name)
      st.toolsCache hcache
    simp [list_tools, hl]

theorem list_tools_caches_witness :
    list_tools mcpEnv0 initialMCPState "resume-tools" =
      (.ok [wTool],
       { sessions := ["resume-tools"],
         toolsCache := [("resume-tools", [wTool])] },
       [.connectHandshake "resume-tools", .toolsListRequest "resume-tools"]) ∧
    list_tools mcpEnv0
      { sessions := ["resume-tools"], toolsCache := [("resume-tools", [wTool])] }
      "resume-tools" =
      (.ok [wTool],
       { sessions := ["resume-tools"],
         toolsCache := [("resume-tools", [wTool])] },
       []) :=
  list_tools_caches mcpEnv0 initialMCPState "resume-tools" rfl (by decide)
    (by decide) rfl rfl

/-- C10: `call_tool` returns `None` (not an error) on an empty content
list; when the first content element carries text that parses as JSON the
parsed value is returned, and otherwise the raw text is returned; any
exception of the underlying `session.call_tool` is re-raised wrapped in a
`RuntimeError` naming the tool. -/
theorem call_tool_spec (parse : String → Option Val) (tool_name : String)
    (sessionResult : Except String (List ContentItem)) :
    (sessionResult = .ok [] →
      call_tool parse tool_name sessionResult = .ok .noValue) ∧
    (∀ t rest j, sessionResult = .ok (.textItem t :: rest) → parse t = some j →
      call_tool parse tool_name sessionResult = .ok (.jsonValue j)) ∧
    (∀ t rest, sessionResult = .ok (.textItem t :: rest) → parse t = none →
      call_tool parse tool_name sessionResult = .ok (.rawText t)) ∧
    (∀ e, sessionResult = .error e →
      call_tool parse tool_name sessionResult =
        .error ("Tool '" ++ tool_name ++ "' execution failed: " ++ e)) := by
  refine ⟨?_, ?_, ?_, ?_⟩
  · intro h; subst h; rfl
  · intro t rest j h hp; subst h; simp [call_tool, hp]
  · intro t rest h hp; subst h; simp [call_tool, hp]
  · intro e h; subst h; rfl

theorem call_tool_spec_witness :
    call_tool wParse10 "calculate_ats_score" (.ok [.textItem "42"]) =
      .ok (.jsonValue (.vnum 42)) ∧
    call_tool wParse10 "calculate_ats_score" (.ok []) = .ok .noValue ∧
    call_tool wParse10 "calculate_ats_score" (.error "boom") =
      .error ("Tool '" ++ "calculate_ats_score" ++ "' execution failed: " ++
        "boom") :=
  ⟨(call_tool_spec wParse10 "calculate_ats_score" (.ok [.textItem "42"])).2.1
      "42" [] (.vnum 42) rfl rfl,
   (call_tool_spec wParse10 "calculate_ats_score" (.ok [])).1 rfl,
   (call_tool_spec wParse10 "calculate_ats_score" (.error "boom")).2.2.2
      "boom" rfl⟩

/-- C7 counterexample: with `job_url = "x"` the web request fails, the
scraped error text stays under 100 characters, and the fallback builder
`_create_fallback_job_data` itself raises `IndexError` on
`"x".split('/')[2]` — outside any `try` — so `extract_job_description`
raises and `run_workflow`'s `except Exception` re-raises: the run aborts
instead of degrading to a fallback value. -/
theorem step1_fallback_counterexample :
    (_scrape_webpage cExtractEnv.scrape "x").length < 100 ∧
    extract_job_description cExtractEnv "x" =
      .error "IndexError: list index out of range" ∧
    runStep1 cExtractEnv "x" [] =
      .error "IndexError: list index out of range" := by
  refine ⟨by decide, rfl, rfl⟩

/-- C7 (amended): for every run whose `job_url` splits on `'/'` into at
least three segments (any absolute http/https URL does), every step-1
failure — scrape failure, too-little scraped content, a crew exception, or
unparseable crew output — degrades to a structured fallback dict that is
written into `ctx.session.state["job_description"]`, and the run
continues: `extract_job_description` never raises there. -/
theorem step1_degrades_spec (env : ExtractEnv) (job_url : String)
    (state : List (String × Val)) (h : 3 ≤ (pySplit job_url '/').length) :
    ∃ jd, extract_job_description env job_url = .ok jd ∧
      runStep1 env job_url state =
        .ok (setStateKey state "job_description" (Val.objOf jd)) := by
  have hh : ∃ host, (pySplit job_url '/').get? 2 = some host := by
    have h2 : 2 < (pySplit job_url '/').length := by omega
    exact ⟨_, List.get?_eq_get h2⟩
  obtain ⟨host, hh⟩ := hh
  by_cases hlt : (_scrape_webpage env.scrape job_url).length < 100
  · cases hcf : _create_fallback_job_data job_url with
    | error e =>
      rw [_create_fallback_job_data, hh] at hcf
      exact absurd hcf (by simp)
    | ok jd =>
      exact ⟨jd, by simp [extract_job_description, hlt, hcf],
             by simp [runStep1, extract_job_description, hlt, hcf]⟩
  · cases hcrew : env.crew with
    | kickoffExc e =>
      exact ⟨crewErrorDict e,
             by simp [extract_job_description, hlt, hcrew],
             by simp [runStep1, extract_job_description, hlt, hcrew]⟩
    | kickoffOk rs =>
      cases hp : env.parsedJob with
      | none =>
        exact ⟨withJobDefaults (fallbackParseDict env job_url rs),
               by simp [extract_job_description, hlt, hcrew, hp],
               by simp [runStep1, extract_job_description, hlt, hcrew, hp]⟩
      | some fs =>
        by_cases hfs : fs.isEmpty
        · exact ⟨withJobDefaults (fallbackParseDict env job_url rs),
                 by simp [extract_job_description, hlt, hcrew, hp, hfs],
                 by simp [runStep1, extract_job_description, hlt, hcrew, hp, hfs]⟩
        · exact ⟨withJobDefaults fs,
                 by simp [extract_job_description, hlt, hcrew, hp, hfs],
                 by simp [runStep1, extract_job_description, hlt, hcrew, hp, hfs]⟩

theorem step1_degrades_spec_witness :
    ∃ jd, extract_job_description cExtractEnv "https://example.com/job" = .ok jd ∧
      runStep1 cExtractEnv "https://example.com/job" [] =
        .ok (setStateKey [] "job_description" (Val.objOf jd)) :=
  step1_degrades_spec cExtractEnv "https://example.com/job" [] (by decide)

end AgentPlxty
